import Mathlib

/-!
Verification of the python-agents tool-calling loop.

Shallow embedding of `src/python_agents/client.py`, `memory.py` and
`message.py`.  External collaborators (the OpenAI network client, the
`json` module, the registered Python callables) are modelled as parameters
of an `Env` record; everything the orchestration loop itself does is
translated directly from the source.
-/

namespace PyAgents

/-- The `function` field of an OpenAI tool call: the tool name and the raw
serialized argument payload (text handed to `json.loads`, possibly empty). -/
structure ToolCallFunction where
  name : String
  arguments : String
  deriving DecidableEq, Repr

/-- One pending tool-invocation request carried inside a model response
(`tc` in `LLMClient._make_tool_call`): an opaque correlation id plus the
function name/arguments pair. -/
structure ToolCall where
  id : String
  function : ToolCallFunction
  deriving DecidableEq, Repr

/-- One conversation turn: the `Message` TypedDict of `message.py`, with the
optional keys modelled as `Option` fields. -/
structure Message where
  role : String
  content : String
  tool_call_id : Option String := none
  name : Option String := none
  tool_calls : Option (List ToolCall) := none
  deriving DecidableEq, Repr

/-! ## memory.py: SimpleMemory -/

/-- `SimpleMemory.add_message`: `self.messages.append(message)`. -/
def add_message (messages : List Message) (m : Message) : List Message :=
  messages ++ [m]

/-- `SimpleMemory.insert_system_message`: if the store is non-empty and its
first element has role `system`, overwrite index 0; if non-empty with a
different first role, insert at index 0; if empty, the store becomes `[m]`. -/
def insert_system_message (messages : List Message) (m : Message) : List Message :=
  match messages with
  | [] => [m]
  | m0 :: rest => if m0.role = "system" then m :: rest else m :: m0 :: rest

/-- `SimpleMemory.clear`: `self.messages = []`. -/
def clear (_ : List Message) : List Message := []

/-- One operation on a `SimpleMemory` store. -/
inductive MemOp where
  | add (m : Message)
  | insertSys (m : Message)
  | clearOp
  deriving Repr

/-- Apply one store operation. -/
def applyOp (messages : List Message) : MemOp → List Message
  | .add m => add_message messages m
  | .insertSys m => insert_system_message messages m
  | .clearOp => clear messages

/-- Apply a sequence of store operations from left to right. -/
def applyOps (messages : List Message) (ops : List MemOp) : List Message :=
  ops.foldl applyOp messages

/-- The single-system-message invariant: at most one Message has role
`system`, and no Message after index 0 has role `system` (so a system
Message, if present, occupies index 0). -/
def sysInvariant (messages : List Message) : Prop :=
  (messages.filter (fun m => m.role == "system")).length ≤ 1 ∧
  ∀ m ∈ messages.drop 1, m.role ≠ "system"

/-- An operation that does not smuggle a system turn past the slot logic:
`add_message` is only given non-system turns.  `insert_system_message` and
`clear` are unrestricted — the slot logic itself keeps the invariant for
any inserted Message. -/
def goodOp : MemOp → Prop
  | .add m => m.role ≠ "system"
  | .insertSys _ => True
  | .clearOp => True

instance (messages : List Message) : Decidable (sysInvariant messages) := by
  unfold sysInvariant
  infer_instance

instance (op : MemOp) : Decidable (goodOp op) := by
  cases op <;> unfold goodOp <;> infer_instance

/-- A concrete non-system message. -/
def c6m : Message := { role := "user", content := "hi" }

/-- A concrete system message. -/
def c6sys : Message := { role := "system", content := "be nice" }

/-- C6: the claim quantifies over every Message `m`; for a Message whose
role is not `system` (here a user message on the empty store), the second
`insert_system_message` call inserts a second copy and the store grows,
so the claim as stated is false. -/
theorem c6_counterexample :
    ¬ ((insert_system_message (insert_system_message [] c6m) c6m).length
        = (insert_system_message [] c6m).length) := by
  decide

/-- C6 (amended): for every Message `m` whose role is `system` and every
store state, inserting `m` twice via `insert_system_message` leaves `m` at
index 0 and the second call does not grow the store. -/
theorem c6_idempotent_slot (messages : List Message) (m : Message)
    (h : m.role = "system") :
    (insert_system_message (insert_system_message messages m) m).head? = some m ∧
    (insert_system_message (insert_system_message messages m) m).length
      = (insert_system_message messages m).length := by
  cases messages with
  | nil => simp [insert_system_message, h]
  | cons m0 rest =>
      by_cases h0 : m0.role = "system" <;>
        simp [insert_system_message, h0, h]

/-- C6 witness: the amended property evaluated on a concrete system message
and the empty store. -/
theorem c6_idempotent_slot_witness :
    (insert_system_message (insert_system_message [] c6sys) c6sys).head? = some c6sys ∧
    (insert_system_message (insert_system_message [] c6sys) c6sys).length
      = (insert_system_message [] c6sys).length :=
  c6_idempotent_slot [] c6sys rfl

/-- A concrete user turn for the C7 counterexample. -/
def c7userM : Message := { role := "user", content := "u" }

/-- A concrete system turn for the C7 counterexample. -/
def c7sysM : Message := { role := "system", content := "s" }

/-- C7: the claim is false as stated — `add_message` performs no role check,
so appending a system-role Message after a user turn leaves a system
Message at index 1, violating the invariant. -/
theorem c7_counterexample :
    ¬ sysInvariant (applyOps [] [MemOp.add c7userM, MemOp.add c7sysM]) := by
  decide

/-- Helper: a list whose members all have non-system roles filters to `[]`
under the system-role predicate. -/
theorem filter_sys_eq_nil (l : List Message)
    (h : ∀ m ∈ l, m.role ≠ "system") :
    l.filter (fun m => m.role == "system") = [] := by
  induction l with
  | nil => rfl
  | cons a t ih =>
      have ha : ¬ (a.role == "system") = true := by
        simpa using h a (List.mem_cons_self a t)
      simp only [List.filter_cons, if_neg ha]
      exact ih (fun m hm => h m (List.mem_cons_of_mem a hm))

/-- Helper: one well-used store operation preserves the single-system
invariant. -/
theorem applyOp_preserves_sysInvariant (messages : List Message) (op : MemOp)
    (hinv : sysInvariant messages) (hop : goodOp op) :
    sysInvariant (applyOp messages op) := by
  obtain ⟨hcount, htail⟩ := hinv
  cases op with
  | add m =>
      simp only [applyOp, add_message]
      constructor
      · have hm : ¬ (m.role == "system") = true := by simpa using hop
        rw [List.filter_append]
        simp only [List.filter_cons, if_neg hm, List.filter_nil, List.append_nil]
        exact hcount
      · cases messages with
        | nil => simp
        | cons m0 rest =>
            intro x hx
            simp only [List.cons_append, List.drop_succ_cons, List.drop_zero] at hx
            rcases List.mem_append.mp hx with hx | hx
            · exact htail x (by simpa using hx)
            · have : x = m := by simpa using hx
              subst this; exact hop
  | insertSys m =>
      simp only [applyOp, insert_system_message]
      cases messages with
      | nil =>
          constructor
          · simp only [List.filter]
            split <;> simp
          · simp
      | cons m0 rest =>
          have hrest : ∀ x ∈ rest, x.role ≠ "system" := by
            intro x hx; exact htail x (by simpa using hx)
          have hfrest : rest.filter (fun m => m.role == "system") = [] :=
            filter_sys_eq_nil rest hrest
          by_cases h0 : m0.role = "system"
          · simp only [if_pos h0]
            constructor
            · simp only [List.filter_cons, hfrest]
              split <;> simp
            · intro x hx
              exact hrest x (by simpa using hx)
          · simp only [if_neg h0]
            constructor
            · have h0' : ¬ (m0.role == "system") = true := by simpa using h0
              simp only [List.filter_cons, if_neg h0', hfrest]
              split <;> simp
            · intro x hx
              simp only [List.drop_succ_cons, List.drop_zero] at hx
              rcases List.mem_cons.mp hx with hx | hx
              · subst hx; exact h0
              · exact hrest x hx
  | clearOp =>
      simp only [applyOp, clear]
      exact ⟨by simp, by simp⟩

/-- C7 (amended): across every sequence of store operations in which
`add_message` is only given non-system Messages — `insert_system_message`
and `clear` unrestricted — the store keeps at most one system Message and
keeps it at index 0, starting from any state satisfying that invariant. -/
theorem c7_system_invariant (init : List Message) (ops : List MemOp)
    (hinit : sysInvariant init) (hops : ∀ op ∈ ops, goodOp op) :
    sysInvariant (applyOps init ops) := by
  induction ops generalizing init with
  | nil => exact hinit
  | cons op rest ih =>
      simp only [applyOps, List.foldl_cons]
      exact ih (applyOp init op)
        (applyOp_preserves_sysInvariant init op hinit
          (hops op (List.mem_cons_self op rest)))
        (fun o ho => hops o (List.mem_cons_of_mem op ho))

/-- C7 witness: the amended invariant evaluated on a concrete operation
sequence that also inserts a non-system Message through the slot. -/
theorem c7_system_invariant_witness :
    sysInvariant (applyOps []
      [MemOp.add c7userM, MemOp.insertSys c7sysM, MemOp.insertSys c7userM,
       MemOp.clearOp, MemOp.insertSys c7sysM, MemOp.add c7userM]) :=
  c7_system_invariant [] _ (by decide) (by decide)

/-! ## client.py: LLMClient -/

/-- A Python value passed to or returned from a registered tool callable.
Only the shapes the embedding needs: strings and integers. -/
inductive PyVal where
  | vStr (s : String)
  | vInt (n : Int)
  deriving DecidableEq, Repr

/-- Python `str()` on an embedded value. -/
def pyStr : PyVal → String
  | .vStr s => s
  | .vInt n => toString n

/-- The exceptions the client code can raise: `ValueError` for a bad query
shape, `RuntimeError` for an unknown tool, a `json.loads` decode failure,
and an exception raised by a registered callable. -/
inductive PyErr where
  | valueError (msg : String)
  | runtimeError (msg : String)
  | jsonError (msg : String)
  | toolError (msg : String)
  deriving DecidableEq, Repr

/-- Parsed keyword arguments: the key→value mapping produced by
`json.loads`. -/
abbrev Kwargs := List (String × PyVal)

/-- One Tool Registry entry (`self.tools[name]`): the bound callable,
invoked with keyword arguments, which either returns a value or raises.
The schema field is irrelevant to the claims and omitted. -/
structure ToolEntry where
  func : Kwargs → Except PyErr PyVal

/-- The message object inside a model response choice
(`response.choices[0].message`). -/
structure RespMessage where
  role : String := "assistant"
  content : String
  tool_calls : Option (List ToolCall) := none
  deriving DecidableEq, Repr

/-- The model response choice returned by `_make_llm_call`
(`response.choices[0]`). -/
structure Choice where
  message : RespMessage
  deriving DecidableEq, Repr

/-- The external collaborators of `LLMClient`, fixed for one `invoke` call:
the Tool Registry contents, the `json.loads` parser, and the model endpoint
(which maps the full message sequence it is shown to the top response
choice). -/
structure Env where
  tools : List (String × ToolEntry)
  loads : String → Except PyErr Kwargs
  llm : List Message → Choice

/-- Python `tool_name in self.tools` / `self.tools[tool_name]`. -/
def lookupTool (env : Env) (tool_name : String) : Option ToolEntry :=
  (env.tools.find? (fun p => p.1 == tool_name)).map (fun p => p.2)

/-- `json.loads(tool_args) if tool_args else {}`: the empty string is falsy
and yields the empty mapping without touching the parser. -/
def parsedArgs (env : Env) (tc : ToolCall) : Except PyErr Kwargs :=
  if tc.function.arguments == "" then Except.ok [] else env.loads tc.function.arguments

/-- `LLMClient._make_tool_call`: read the name and raw arguments, parse the
arguments (empty payload → empty mapping), then look the name up in the
registry — raising `RuntimeError` if absent — call the bound callable with
the parsed kwargs, and `str()` its result.  Returns
`(tc.id, tool_name, tool_result)`. -/
def _make_tool_call (env : Env) (tc : ToolCall) :
    Except PyErr (String × String × String) :=
  match parsedArgs env tc with
  | .error e => .error e
  | .ok tool_args =>
    match lookupTool env tc.function.name with
    | some entry =>
      match entry.func tool_args with
      | .ok v => .ok (tc.id, tc.function.name, pyStr v)
      | .error e => .error e
    | none =>
      .error (.runtimeError ("LLM tried to call unknown tool '"
        ++ tc.function.name ++ "'"))

/-- `_make_llm_call`: one exchange with the model endpoint, returning
`response.choices[0]`.  Transport failures are out of scope; the endpoint
is total in this embedding. -/
def _make_llm_call (env : Env) (messages : List Message) : Choice :=
  env.llm messages

/-- `response.message.model_dump()`: the assistant response message appended
verbatim to the conversation, pending tool calls included. -/
def modelDump (rm : RespMessage) : Message :=
  { role := rm.role, content := rm.content, tool_call_id := none,
    name := none, tool_calls := rm.tool_calls }

/-- The tool-result Message built in `invoke`'s loop body:
`Message(role="tool", content=tool_result, tool_call_id=..., name=...)`. -/
def mkToolMsg (tool_call_id tool_name tool_result : String) : Message :=
  { role := "tool", content := tool_result, tool_call_id := some tool_call_id,
    name := some tool_name }

/-- One resolved dispatch, the `(tool_call_id, tool_name, tool_result)`
triple `_make_tool_call` returns. -/
abbrev Dispatch := String × String × String

/-- The `for tc in response.message.tool_calls` loop body of `invoke`,
run over the whole batch: dispatch each request in emission order, stopping
at the first raised exception.  Returns the tool-result Messages appended,
the resolved dispatch triples, and the exception that aborted the batch, if
any.  The dispatcher never reads the conversation, so the appended suffix
is independent of the list it is appended to. -/
def runToolCalls (env : Env) : List ToolCall →
    (List Message × List Dispatch × Option PyErr)
  | [] => ([], [], none)
  | tc :: rest =>
    match _make_tool_call env tc with
    | .ok (tool_call_id, tool_name, tool_result) =>
      let (tms, ds, e) := runToolCalls env rest
      (mkToolMsg tool_call_id tool_name tool_result :: tms,
        (tool_call_id, tool_name, tool_result) :: ds, e)
    | .error e => ([], [], some e)

/-- The runtime shape of `invoke`'s `query` argument.  `Message` is a
`TypedDict`, so a "single Message" value is a plain `dict` at runtime —
`dict m` below; no runtime value has the class `Message` itself as its
type. -/
inductive Query where
  | str (s : String)
  | dict (m : Message)
  | list (l : List Message)
  | other

/-- The `type(query) is ...` chain at the top of `invoke`: a bare string
becomes a single user Message and a list is used as-is.  The middle
`elif type(query) is Message` branch is dead code: `Message` is a
`TypedDict`, whose construction returns a plain `dict`, so `type(query)`
is never the class `Message` — a single-Message query falls through to the
trailing `else` and raises `ValueError`, like every other unsupported
shape. -/
def normalizeQuery : Query → Except PyErr (List Message)
  | .str s => .ok [{ role := "user", content := s }]
  | .dict _ => .error (.valueError "Parameter query is of wrong type!")
  | .list l => .ok l
  | .other => .error (.valueError "Parameter query is of wrong type!")

/-- Everything observable about one `invoke` call: the returned response
(or the exception it raised), the conversation list as the caller sees it
afterwards (Python mutates the caller's own list in place), plus two ghost
traces — the message sequence each model call was given, and the resolved
dispatch triples. -/
structure Outcome where
  result : Except PyErr Choice
  messages : List Message
  llmInputs : List (List Message)
  dispatches : List Dispatch
  deriving Repr

/-- `LLMClient.invoke`: normalize the query, make one model call; when the
response's `tool_calls` field is not `None` (an empty list included!),
append the dumped assistant message, resolve each tool call in order
appending its tool Message, make a second model call and return its
response; when `tool_calls` is `None`, return the first response at once.
No loop: the second response is returned even if it requests tools. -/
def invoke (env : Env) (query : Query) : Outcome :=
  match normalizeQuery query with
  | .error e => ⟨.error e, [], [], []⟩
  | .ok messages =>
    let response := _make_llm_call env messages
    match response.message.tool_calls with
    | some tcs =>
      let (tms, ds, err) := runToolCalls env tcs
      let messages2 := messages ++ modelDump response.message :: tms
      match err with
      | some e => ⟨.error e, messages2, [messages], ds⟩
      | none =>
        let response2 := _make_llm_call env messages2
        ⟨.ok response2, messages2, [messages, messages2], ds⟩
    | none => ⟨.ok response, messages, [messages], []⟩

instance {ε α : Type} [DecidableEq ε] [DecidableEq α] : DecidableEq (Except ε α)
  | .ok a, .ok b =>
    if h : a = b then .isTrue (by rw [h])
    else .isFalse (by intro hc; cases hc; exact h rfl)
  | .ok _, .error _ => .isFalse (by intro h; cases h)
  | .error _, .ok _ => .isFalse (by intro h; cases h)
  | .error e, .error f =>
    if h : e = f then .isTrue (by rw [h])
    else .isFalse (by intro hc; cases hc; exact h rfl)

/-! ## Helper lemmas about `invoke` and `runToolCalls` -/

/-- The first model call of `invoke` receives exactly the normalized query
sequence. -/
theorem invoke_first_llm_input (env : Env) (q : Query) (ms0 : List Message)
    (hq : normalizeQuery q = Except.ok ms0) :
    (invoke env q).llmInputs.head? = some ms0 := by
  unfold invoke
  rw [hq]
  dsimp only [_make_llm_call]
  cases htc : (env.llm ms0).message.tool_calls with
  | none => rfl
  | some tcs =>
    rcases hr : runToolCalls env tcs with ⟨tms, ds, err⟩
    cases err <;> simp [hr]

/-- When every request in the batch resolves, `runToolCalls` produces one
tool Message per request, in request order, carrying the request's id and
name and the `str()` of the callable's value. -/
theorem runToolCalls_all_ok (env : Env) (tcs : List ToolCall)
    (valOf : ToolCall → PyVal)
    (hok : ∀ tc ∈ tcs, ∃ args entry,
      parsedArgs env tc = Except.ok args ∧
      lookupTool env tc.function.name = some entry ∧
      entry.func args = Except.ok (valOf tc)) :
    runToolCalls env tcs
      = (tcs.map (fun tc => mkToolMsg tc.id tc.function.name (pyStr (valOf tc))),
         tcs.map (fun tc => (tc.id, tc.function.name, pyStr (valOf tc))),
         none) := by
  induction tcs with
  | nil => rfl
  | cons tc rest ih =>
    obtain ⟨args, entry, ha, hl, hf⟩ := hok tc (List.mem_cons_self tc rest)
    have hmt : _make_tool_call env tc
        = Except.ok (tc.id, tc.function.name, pyStr (valOf tc)) := by
      simp only [_make_tool_call, ha, hl, hf]
    have hrest := ih (fun t ht => hok t (List.mem_cons_of_mem tc ht))
    simp only [runToolCalls, hmt, hrest, List.map_cons]

/-- When the requests before `bad` all resolve and dispatching `bad` raises
`e`, the batch stops at `bad`: only the earlier requests' tool Messages are
produced and the exception is `e`. -/
theorem runToolCalls_stops_at_error (env : Env) (pre post : List ToolCall)
    (bad : ToolCall) (valOf : ToolCall → PyVal) (e : PyErr)
    (hpre : ∀ tc ∈ pre, ∃ args entry,
      parsedArgs env tc = Except.ok args ∧
      lookupTool env tc.function.name = some entry ∧
      entry.func args = Except.ok (valOf tc))
    (hbad : _make_tool_call env bad = Except.error e) :
    runToolCalls env (pre ++ bad :: post)
      = (pre.map (fun tc => mkToolMsg tc.id tc.function.name (pyStr (valOf tc))),
         pre.map (fun tc => (tc.id, tc.function.name, pyStr (valOf tc))),
         some e) := by
  induction pre with
  | nil =>
    simp only [List.nil_append, List.map_nil, runToolCalls, hbad]
  | cons tc rest ih =>
    obtain ⟨args, entry, ha, hl, hf⟩ := hpre tc (List.mem_cons_self tc rest)
    have hmt : _make_tool_call env tc
        = Except.ok (tc.id, tc.function.name, pyStr (valOf tc)) := by
      simp only [_make_tool_call, ha, hl, hf]
    have hrest := ih (fun t ht => hpre t (List.mem_cons_of_mem tc ht))
    simp only [List.cons_append, List.map_cons, runToolCalls, hmt, List.append_eq, hrest]

/-- Every Message produced by `runToolCalls` has role `tool`. -/
theorem runToolCalls_roles (env : Env) (tcs : List ToolCall) :
    ∀ m ∈ (runToolCalls env tcs).1, m.role = "tool" := by
  induction tcs with
  | nil => intro m hm; cases hm
  | cons tc rest ih =>
    intro m hm
    unfold runToolCalls at hm
    cases hmt : _make_tool_call env tc with
    | ok r =>
      rw [hmt] at hm
      obtain ⟨i, n, res⟩ := r
      rcases hr : runToolCalls env rest with ⟨tms, ds, err⟩
      rw [hr] at hm
      simp only at hm
      rcases List.mem_cons.mp hm with h | h
      · subst h; rfl
      · exact ih m (by rw [hr]; exact h)
    | error e =>
      rw [hmt] at hm
      cases hm

/-! ## Concrete environments for counterexamples and witnesses -/

/-- A registered tool taking no arguments and returning the string `ok`. -/
def echoEntry : ToolEntry := ⟨fun _ => Except.ok (.vStr "ok")⟩

/-- A tool-call request for `echo` with an empty argument payload. -/
def echoTc : ToolCall := ⟨"call_1", ⟨"echo", ""⟩⟩

/-- A concrete user turn. -/
def uMsg : Message := { role := "user", content := "q" }

/-- An endpoint that always requests the `echo` tool, round after round. -/
def env1 : Env :=
  { tools := [("echo", echoEntry)],
    loads := fun s => Except.error (.jsonError s),
    llm := fun _ => ⟨{ content := "loop", tool_calls := some [echoTc] }⟩ }

/-- An endpoint whose first response carries `tool_calls = []` (empty list,
not `None`) and whose second response is a plain answer. -/
def env2 : Env :=
  { tools := [],
    loads := fun s => Except.error (.jsonError s),
    llm := fun ms =>
      if ms.length == 1 then ⟨{ content := "first", tool_calls := some [] }⟩
      else ⟨{ content := "second", tool_calls := none }⟩ }

/-- An endpoint that always answers plainly, with no tool calls. -/
def env2b : Env :=
  { tools := [],
    loads := fun s => Except.error (.jsonError s),
    llm := fun _ => ⟨{ content := "plain", tool_calls := none }⟩ }

/-- Same shape as `env2`, used for the caller-list frame claim. -/
def env10 : Env :=
  { tools := [],
    loads := fun s => Except.error (.jsonError s),
    llm := fun ms =>
      if ms.length == 1 then ⟨{ content := "empty batch", tool_calls := some [] }⟩
      else ⟨{ content := "after", tool_calls := none }⟩ }

/-! ## C1 -/

/-- C1: the claim says `invoke` keeps calling the model until a response
carries no tool-call requests and returns only such a response.  False: with
an endpoint that always requests the `echo` tool, `invoke` returns after the
second model call, and the returned response still carries a non-empty
tool-call batch. -/
theorem c1_counterexample :
    (invoke env1 (Query.str "hi")).result
      = Except.ok ⟨{ content := "loop", tool_calls := some [echoTc] }⟩ ∧
    some [echoTc] ≠ (none : Option (List ToolCall)) ∧ [echoTc] ≠ [] := by
  decide

/-- C1 (amended): `invoke` performs at most one round of tool resolution.
After the first response's batch is fully resolved and its Messages
appended, the Completion Invoker is called exactly once more with the
extended sequence and that second response is returned as-is, whether or
not it carries tool-call requests. -/
theorem c1_single_round (env : Env) (q : Query) (ms0 : List Message)
    (tcs : List ToolCall) (tms : List Message) (ds : List Dispatch)
    (hq : normalizeQuery q = Except.ok ms0)
    (htc : (env.llm ms0).message.tool_calls = some tcs)
    (hrun : runToolCalls env tcs = (tms, ds, none)) :
    (invoke env q).result
      = Except.ok (env.llm (ms0 ++ modelDump (env.llm ms0).message :: tms)) ∧
    (invoke env q).llmInputs
      = [ms0, ms0 ++ modelDump (env.llm ms0).message :: tms] := by
  constructor <;> simp [invoke, _make_llm_call, hq, htc, hrun]

/-- C1 witness: the amended single-round property on the always-requesting
endpoint. -/
theorem c1_single_round_witness :
    (invoke env1 (Query.str "hi")).result
      = Except.ok (env1.llm ([{ role := "user", content := "hi" }]
          ++ modelDump (env1.llm [{ role := "user", content := "hi" }]).message
          :: [mkToolMsg "call_1" "echo" "ok"])) ∧
    (invoke env1 (Query.str "hi")).llmInputs
      = [[{ role := "user", content := "hi" }],
         [{ role := "user", content := "hi" }]
           ++ modelDump (env1.llm [{ role := "user", content := "hi" }]).message
           :: [mkToolMsg "call_1" "echo" "ok"]] :=
  c1_single_round env1 (Query.str "hi") [{ role := "user", content := "hi" }]
    [echoTc] [mkToolMsg "call_1" "echo" "ok"] [("call_1", "echo", "ok")]
    rfl rfl (by decide)

/-! ## C2 -/

/-- C2: the claim covers `tool_calls` absent (`None`) or an empty list.
False for the empty list: `if response.message.tool_calls is not None`
treats `[]` as a tool round, so `invoke` makes a second model call and
returns the second response, not the first. -/
theorem c2_counterexample :
    (env2.llm [uMsg]).message.tool_calls = some [] ∧
    (invoke env2 (Query.list [uMsg])).llmInputs.length = 2 ∧
    (invoke env2 (Query.list [uMsg])).result
      = Except.ok ⟨{ content := "second", tool_calls := none }⟩ ∧
    (⟨{ content := "second", tool_calls := none }⟩ : Choice)
      ≠ ⟨{ content := "first", tool_calls := some [] }⟩ := by
  decide

/-- C2 (amended): when a model response's `tool_calls` is absent (`None`),
`invoke` returns that response after exactly one model call with no tool
dispatch; when it is an empty list, `invoke` dispatches no tool but appends
the assistant Message, makes a second model call, and returns the second
response. -/
theorem c2_none_single_call (env : Env) (q : Query) (ms0 : List Message)
    (hq : normalizeQuery q = Except.ok ms0) :
    ((env.llm ms0).message.tool_calls = none →
      invoke env q = ⟨Except.ok (env.llm ms0), ms0, [ms0], []⟩) ∧
    ((env.llm ms0).message.tool_calls = some [] →
      invoke env q =
        ⟨Except.ok (env.llm (ms0 ++ [modelDump (env.llm ms0).message])),
         ms0 ++ [modelDump (env.llm ms0).message],
         [ms0, ms0 ++ [modelDump (env.llm ms0).message]], []⟩) := by
  constructor
  · intro h
    simp [invoke, _make_llm_call, hq, h]
  · intro h
    simp [invoke, _make_llm_call, hq, h, runToolCalls]

/-- C2 witness: the `None` branch on a plain-answer endpoint. -/
theorem c2_none_single_call_witness :
    invoke env2b (Query.str "hi")
      = ⟨Except.ok (env2b.llm [{ role := "user", content := "hi" }]),
         [{ role := "user", content := "hi" }],
         [[{ role := "user", content := "hi" }]], []⟩ :=
  (c2_none_single_call env2b (Query.str "hi")
    [{ role := "user", content := "hi" }] rfl).1 rfl

/-! ## C8 -/

/-- C8: the claim says a single Message becomes a one-element sequence
holding it, but the `elif type(query) is Message` test never fires —
`Message` is a `TypedDict`, whose construction returns a plain `dict` — so
a single-Message query falls to the trailing `else` and raises `ValueError`
before any model call is made.  The string and list shapes, and the
error on unsupported shapes, do behave as claimed. -/
theorem c8_message_query_raises (env : Env) (s : String) (m : Message)
    (l : List Message) :
    invoke env (Query.dict m)
      = ⟨Except.error (PyErr.valueError "Parameter query is of wrong type!"),
         [], [], []⟩ ∧
    (invoke env (Query.str s)).llmInputs.head?
      = some [{ role := "user", content := s }] ∧
    (invoke env (Query.list l)).llmInputs.head? = some l ∧
    invoke env Query.other
      = ⟨Except.error (PyErr.valueError "Parameter query is of wrong type!"),
         [], [], []⟩ :=
  ⟨rfl, invoke_first_llm_input env _ _ rfl,
   invoke_first_llm_input env _ _ rfl, rfl⟩

/-! ## C9 -/

/-- C9: every `invoke` call performs at most two model calls; and when the
first response's `tool_calls` is not `None` and the batch resolves, exactly
one batch is dispatched, exactly two model calls happen, and the second
response is returned as-is — no third call, whatever the second response
carries. -/
theorem c9_at_most_two_calls (env : Env) (q : Query) :
    (invoke env q).llmInputs.length ≤ 2 ∧
    (∀ ms0 tcs tms ds,
      normalizeQuery q = Except.ok ms0 →
      (env.llm ms0).message.tool_calls = some tcs →
      runToolCalls env tcs = (tms, ds, none) →
      (invoke env q).llmInputs.length = 2 ∧
      (invoke env q).dispatches = ds ∧
      (invoke env q).result
        = Except.ok (env.llm (ms0 ++ modelDump (env.llm ms0).message :: tms))) := by
  constructor
  · unfold invoke
    cases hq : normalizeQuery q with
    | error e => simp
    | ok ms0 =>
      dsimp only [_make_llm_call]
      cases htc : (env.llm ms0).message.tool_calls with
      | none => simp
      | some tcs =>
        rcases hr : runToolCalls env tcs with ⟨tms, ds, err⟩
        cases err <;> simp [hr]
  · intro ms0 tcs tms ds hq htc hrun
    refine ⟨?_, ?_, ?_⟩ <;> simp [invoke, _make_llm_call, hq, htc, hrun]

/-- C9 witness: on the endpoint that always requests `echo`, the second
response itself carries a tool-call batch, yet exactly two model calls are
made and it is returned as-is. -/
theorem c9_at_most_two_calls_witness :
    (invoke env1 (Query.str "go")).llmInputs.length = 2 ∧
    (invoke env1 (Query.str "go")).dispatches = [("call_1", "echo", "ok")] ∧
    (invoke env1 (Query.str "go")).result
      = Except.ok (env1.llm ([{ role := "user", content := "go" }]
          ++ modelDump (env1.llm [{ role := "user", content := "go" }]).message
          :: [mkToolMsg "call_1" "echo" "ok"])) :=
  (c9_at_most_two_calls env1 (Query.str "go")).2
    [{ role := "user", content := "go" }] [echoTc]
    [mkToolMsg "call_1" "echo" "ok"] [("call_1", "echo", "ok")]
    rfl rfl (by decide)

/-! ## C10 -/

/-- C10: the claim says the caller's list is left unchanged when the first
response carries no tool-call requests.  False when `tool_calls` is the
empty list: the batch is empty (zero requests), yet the dumped assistant
Message is still appended to the caller's list. -/
theorem c10_counterexample :
    (env10.llm [uMsg]).message.tool_calls = some [] ∧
    (invoke env10 (Query.list [uMsg])).messages
      = [uMsg, modelDump (env10.llm [uMsg]).message] ∧
    (invoke env10 (Query.list [uMsg])).messages ≠ [uMsg] := by
  decide

/-- C10 (amended): when `invoke` is called with a list query, the caller's
sequence is extended in place exactly when the first response's
`tool_calls` field is not `None` (even an empty list): the dumped assistant
Message followed by the produced tool Messages is appended after the
caller's elements; when `tool_calls` is `None`, the list is unchanged. -/
theorem c10_caller_list (env : Env) (l : List Message) :
    ((env.llm l).message.tool_calls = none →
      (invoke env (Query.list l)).messages = l) ∧
    (∀ tcs, (env.llm l).message.tool_calls = some tcs →
      ∃ tms, (invoke env (Query.list l)).messages
          = l ++ modelDump (env.llm l).message :: tms ∧
        ∀ m ∈ tms, m.role = "tool") := by
  constructor
  · intro h
    simp [invoke, normalizeQuery, _make_llm_call, h]
  · intro tcs h
    refine ⟨(runToolCalls env tcs).1, ?_, runToolCalls_roles env tcs⟩
    rcases hr : runToolCalls env tcs with ⟨tms, ds, err⟩
    cases err <;> simp [invoke, normalizeQuery, _make_llm_call, h, hr]

/-- C10 witness: the unchanged-list branch on a plain-answer endpoint. -/
theorem c10_caller_list_witness :
    (invoke env2b (Query.list [uMsg])).messages = [uMsg] :=
  (c10_caller_list env2b [uMsg]).1 rfl

/-! ## C3 -/

/-- A registered tool taking no arguments and returning `hello!`. -/
def greetEntry : ToolEntry := ⟨fun _ => Except.ok (.vStr "hello!")⟩

/-- A registered tool reading keyword argument `x` and returning `x + 1`. -/
def addEntry : ToolEntry :=
  ⟨fun args =>
    match args.find? (fun p => p.1 == "x") with
    | some p =>
      match p.2 with
      | .vInt n => Except.ok (.vInt (n + 1))
      | _ => Except.error (.toolError "bad argument for x")
    | none => Except.error (.toolError "missing argument x")⟩

/-- A zero-argument `greet` request. -/
def tc31 : ToolCall := ⟨"id1", ⟨"greet", ""⟩⟩

/-- An `add` request whose raw payload is the JSON text for `x = 1`. -/
def tc32 : ToolCall := ⟨"id2", ⟨"add", "\x7b\"x\": 1\x7d"⟩⟩

/-- An endpoint whose first response requests `greet` then `add`, with both
tools registered. -/
def env3 : Env :=
  { tools := [("greet", greetEntry), ("add", addEntry)],
    loads := fun s =>
      if s == "\x7b\"x\": 1\x7d" then Except.ok [("x", .vInt 1)]
      else Except.error (.jsonError s),
    llm := fun ms =>
      if ms.length == 1 then ⟨{ content := "", tool_calls := some [tc31, tc32] }⟩
      else ⟨{ content := "done", tool_calls := none }⟩ }

/-- The values the two registered callables return on the C3 batch. -/
def c3valOf : ToolCall → PyVal := fun tc =>
  if tc.id == "id1" then .vStr "hello!" else .vInt 2

/-- C3: when a response requests N ≥ 1 tool calls, all naming registered
tools whose callables return normally, the conversation gains the dumped
assistant Message followed by exactly N tool Messages — the i-th with role
`tool`, the i-th request's id as `tool_call_id`, its tool name as `name`,
and the `str()` of the i-th callable's result as content, in request
order — and the second model call receives exactly that extended
sequence. -/
theorem c3_batch_results (env : Env) (q : Query) (ms0 : List Message)
    (tcs : List ToolCall) (valOf : ToolCall → PyVal)
    (hq : normalizeQuery q = Except.ok ms0)
    (htc : (env.llm ms0).message.tool_calls = some tcs)
    (_hn : 0 < tcs.length)
    (hok : ∀ tc ∈ tcs, ∃ args entry,
      parsedArgs env tc = Except.ok args ∧
      lookupTool env tc.function.name = some entry ∧
      entry.func args = Except.ok (valOf tc)) :
    (invoke env q).messages = ms0 ++ modelDump (env.llm ms0).message
        :: tcs.map (fun tc => mkToolMsg tc.id tc.function.name (pyStr (valOf tc))) ∧
    (invoke env q).llmInputs = [ms0, (invoke env q).messages] ∧
    (invoke env q).result = Except.ok (env.llm ((invoke env q).messages)) := by
  have hrun := runToolCalls_all_ok env tcs valOf hok
  refine ⟨?_, ?_, ?_⟩ <;> simp [invoke, _make_llm_call, hq, htc, hrun]

/-- C3 witness: a two-request batch (`greet` with empty payload, `add`
with a JSON payload) against the endpoint `env3`. -/
theorem c3_batch_results_witness :
    (invoke env3 (Query.str "hey")).messages
      = [{ role := "user", content := "hey" }]
        ++ modelDump (env3.llm [{ role := "user", content := "hey" }]).message
        :: [tc31, tc32].map
             (fun tc => mkToolMsg tc.id tc.function.name (pyStr (c3valOf tc))) ∧
    (invoke env3 (Query.str "hey")).llmInputs
      = [[{ role := "user", content := "hey" }],
         (invoke env3 (Query.str "hey")).messages] ∧
    (invoke env3 (Query.str "hey")).result
      = Except.ok (env3.llm ((invoke env3 (Query.str "hey")).messages)) :=
  c3_batch_results env3 (Query.str "hey") [{ role := "user", content := "hey" }]
    [tc31, tc32] c3valOf rfl rfl (by decide)
    (by
      intro tc htc
      rcases List.mem_cons.mp htc with h | h
      · subst h
        exact ⟨[], greetEntry, rfl, rfl, rfl⟩
      · have h' : tc = tc32 := by simpa using h
        subst h'
        exact ⟨[("x", .vInt 1)], addEntry, rfl, rfl, rfl⟩)

/-! ## C4 -/

/-- A request for the registered tool `greet`. -/
def kTc : ToolCall := ⟨"k1", ⟨"greet", ""⟩⟩

/-- A request for an unregistered tool name, empty payload. -/
def ghostTc : ToolCall := ⟨"g1", ⟨"ghost", ""⟩⟩

/-- An endpoint whose first response requests the registered `greet` and
then the unregistered `ghost`. -/
def env4 : Env :=
  { tools := [("greet", greetEntry)],
    loads := fun s => Except.error (.jsonError s),
    llm := fun ms =>
      if ms.length == 1 then ⟨{ content := "", tool_calls := some [kTc, ghostTc] }⟩
      else ⟨{ content := "x", tool_calls := none }⟩ }

/-- C4: the claim says no Message beyond the assistant's is appended.
False: when the unknown name is not the first request, the tool Messages of
the earlier, successfully resolved requests have already been appended when
`invoke` aborts. -/
theorem c4_counterexample :
    (invoke env4 (Query.list [uMsg])).result
      = Except.error (.runtimeError "LLM tried to call unknown tool 'ghost'") ∧
    (invoke env4 (Query.list [uMsg])).messages
      = [uMsg, modelDump (env4.llm [uMsg]).message,
         mkToolMsg "k1" "greet" "hello!"] ∧
    (invoke env4 (Query.list [uMsg])).messages
      ≠ [uMsg, modelDump (env4.llm [uMsg]).message] := by
  decide

/-- C4 (amended): a response requesting an unregistered tool (whose raw
arguments are empty or parse) makes `invoke` abort with the unknown-tool
`RuntimeError`; the Messages appended are the assistant's Message followed
by exactly the tool Messages of the successfully resolved requests
preceding the first unknown one, and no second model call is made. -/
theorem c4_unknown_tool_aborts (env : Env) (q : Query) (ms0 : List Message)
    (pre post : List ToolCall) (bad : ToolCall) (valOf : ToolCall → PyVal)
    (args : Kwargs)
    (hq : normalizeQuery q = Except.ok ms0)
    (htc : (env.llm ms0).message.tool_calls = some (pre ++ bad :: post))
    (hpre : ∀ tc ∈ pre, ∃ a entry,
      parsedArgs env tc = Except.ok a ∧
      lookupTool env tc.function.name = some entry ∧
      entry.func a = Except.ok (valOf tc))
    (hbadargs : parsedArgs env bad = Except.ok args)
    (hbad : lookupTool env bad.function.name = none) :
    (invoke env q).result = Except.error (.runtimeError
      ("LLM tried to call unknown tool '" ++ bad.function.name ++ "'")) ∧
    (invoke env q).messages = ms0 ++ modelDump (env.llm ms0).message
      :: pre.map (fun tc => mkToolMsg tc.id tc.function.name (pyStr (valOf tc))) ∧
    (invoke env q).llmInputs.length = 1 := by
  have hbadcall : _make_tool_call env bad = Except.error (.runtimeError
      ("LLM tried to call unknown tool '" ++ bad.function.name ++ "'")) := by
    simp only [_make_tool_call, hbadargs, hbad]
  have hrun := runToolCalls_stops_at_error env pre post bad valOf _ hpre hbadcall
  refine ⟨?_, ?_, ?_⟩ <;> simp [invoke, _make_llm_call, hq, htc, hrun]

/-- C4 witness: the amended property on `env4`, where `greet` resolves and
`ghost` is unknown. -/
theorem c4_unknown_tool_aborts_witness :
    (invoke env4 (Query.list [uMsg])).result = Except.error (.runtimeError
      ("LLM tried to call unknown tool '" ++ "ghost" ++ "'")) ∧
    (invoke env4 (Query.list [uMsg])).messages
      = [uMsg] ++ modelDump (env4.llm [uMsg]).message
        :: [kTc].map (fun tc => mkToolMsg tc.id tc.function.name
             (pyStr (PyVal.vStr "hello!"))) ∧
    (invoke env4 (Query.list [uMsg])).llmInputs.length = 1 :=
  c4_unknown_tool_aborts env4 (Query.list [uMsg]) [uMsg] [kTc] [] ghostTc
    (fun _ => .vStr "hello!") [] rfl rfl
    (by
      intro tc htc
      have h' : tc = kTc := by simpa using htc
      subst h'
      exact ⟨[], greetEntry, rfl, rfl, rfl⟩)
    rfl rfl

/-! ## C5 -/

/-- A request for an unregistered tool with a malformed payload. -/
def ghostArgsTc : ToolCall := ⟨"g2", ⟨"ghost", "not json"⟩⟩

/-- A request for an unregistered tool with an empty payload. -/
def ghostEmptyTc : ToolCall := ⟨"g3", ⟨"ghost", ""⟩⟩

/-- An environment whose parser accepts only the empty JSON object text. -/
def env5 : Env :=
  { tools := [("greet", greetEntry)],
    loads := fun s =>
      if s == "\x7b\x7d" then Except.ok [] else Except.error (.jsonError s),
    llm := fun _ => ⟨{ content := "", tool_calls := none }⟩ }

/-- C5: the claim says the registry lookup comes first, so an absent name
always yields the unknown-tool error whatever the raw arguments are.
False: `_make_tool_call` parses the arguments first, so an unknown tool
with a malformed payload fails with the JSON decode error instead. -/
theorem c5_counterexample :
    (lookupTool env5 "ghost").isNone = true ∧
    _make_tool_call env5 ghostArgsTc = Except.error (.jsonError "not json") ∧
    (Except.error (.jsonError "not json")
        : Except PyErr (String × String × String))
      ≠ Except.error (.runtimeError "LLM tried to call unknown tool 'ghost'") := by
  decide

/-- C5 (amended): the dispatcher first parses `raw_arguments` — an empty
payload becomes the empty mapping without consulting the parser, and a
parse failure propagates even when the tool name is unknown — then looks
the name up in the registry, failing with the unknown-tool error if
absent, then invokes the bound callable with the parsed kwargs and
`str()`s its return value. -/
theorem c5_parse_then_lookup (env : Env) (tc : ToolCall) :
    (tc.function.arguments = "" → parsedArgs env tc = Except.ok []) ∧
    (∀ e, tc.function.arguments ≠ "" →
      env.loads tc.function.arguments = Except.error e →
      _make_tool_call env tc = Except.error e) ∧
    (∀ args, parsedArgs env tc = Except.ok args →
      lookupTool env tc.function.name = none →
      _make_tool_call env tc = Except.error (.runtimeError
        ("LLM tried to call unknown tool '" ++ tc.function.name ++ "'"))) ∧
    (∀ args entry v, parsedArgs env tc = Except.ok args →
      lookupTool env tc.function.name = some entry →
      entry.func args = Except.ok v →
      _make_tool_call env tc = Except.ok (tc.id, tc.function.name, pyStr v)) := by
  refine ⟨?_, ?_, ?_, ?_⟩
  · intro h
    simp [parsedArgs, h]
  · intro e h1 h2
    have hb : (tc.function.arguments == "") = false := beq_eq_false_iff_ne.mpr h1
    simp [_make_tool_call, parsedArgs, hb, h2]
  · intro args ha hnone
    simp [_make_tool_call, ha, hnone]
  · intro args entry v ha hsome hv
    simp [_make_tool_call, ha, hsome, hv]

/-- C5 witness: unknown tool with an empty payload reaches the lookup and
fails with the unknown-tool error. -/
theorem c5_parse_then_lookup_witness :
    _make_tool_call env5 ghostEmptyTc = Except.error (.runtimeError
      ("LLM tried to call unknown tool '" ++ "ghost" ++ "'")) :=
  (c5_parse_then_lookup env5 ghostEmptyTc).2.2.1 [] rfl rfl

end PyAgents
